import Mathlib

/-!
# NetSim: turn scheduler, reports and command-line entry point

A shallow embedding of `src/simulation.cpp`, `src/reports.cpp` and `src/main.cpp`
of the NetSim factory simulator, together with the node model those files are
written against (`factory.hpp`, `nodes.hpp`, `storage_types.hpp`, `package.hpp`),
which is reconstructed from the specification.

Output streams are modelled as the `String` written so far; `os << x` is `os ++ x`.
-/

namespace NetSim

/-! ## Identifiers and time -/

/-- Modelled from the spec: `ElementID` (its header is not among the files embedded
here) is a non-negative integer. -/
abbrev ElementID := Nat

/-- Modelled from the spec: `Time` (its header is not among the files embedded here)
is a positive integer turn counter; it is taken unbounded. -/
abbrev Time := Nat

/-- Modelled from the spec: `TimeOffset`, the type of the simulation horizon. -/
abbrev TimeOffset := Nat

/-! ## Packages and package queues -/

/-- Modelled from the spec: `Package` (package.hpp is not among the files embedded here),
a token carrying one `ElementID`; equality is by id. -/
structure Package where
  id : ElementID
  deriving DecidableEq, Repr

/-- Modelled from the spec: `Package::get_id()`, "query id". -/
def Package.get_id (p : Package) : ElementID := p.id

/-- Modelled from the spec: `PackageQueueType`, the discipline tag, FIFO or LIFO. -/
inductive PackageQueueType where
  | FIFO : PackageQueueType
  | LIFO : PackageQueueType
  deriving DecidableEq, Repr

/-- Modelled from the spec: `PackageQueue` (storage_types.hpp is not among the files
embedded here), "an ordered sequence of Packages plus a discipline tag". `items` holds the
packages in the order they were pushed, oldest first. -/
structure PackageQueue where
  queue_type : PackageQueueType
  items : List Package
  deriving DecidableEq, Repr

namespace PackageQueue

/-- Modelled from the spec: `PackageQueue(type)`, a new queue: it holds nothing and "the
discipline is fixed at construction". -/
def empty_queue (qt : PackageQueueType) : PackageQueue := { queue_type := qt, items := [] }

/-- Modelled from the spec: `get_queue_type()`, the tag fixed at construction. -/
def get_queue_type (q : PackageQueue) : PackageQueueType := q.queue_type

/-- Modelled from the spec: "`push` appends". -/
def push (q : PackageQueue) (p : Package) : PackageQueue :=
  { q with items := q.items ++ [p] }

/-- Modelled from the spec: "`pop()` returns the oldest element under FIFO, the newest
under LIFO"; "`pop` on empty fails with EmptyBuffer" (`none`). -/
def pop (q : PackageQueue) : Option (Package × PackageQueue) :=
  match q.queue_type with
  | PackageQueueType.FIFO =>
    match q.items with
    | [] => none
    | p :: rest => some (p, { q with items := rest })
  | PackageQueueType.LIFO =>
    match q.items.getLast? with
    | none => none
    | some p => some (p, { q with items := q.items.dropLast })

/-- Modelled from the spec: `size()`, the number of packages held. -/
def size (q : PackageQueue) : Nat := q.items.length

/-- Modelled from the spec: "`begin/end` iterate front-to-back", "the sequence is iterable
in logical order (front = next to pop)": the packages from `cbegin()` to `cend()`. -/
def iter (q : PackageQueue) : List Package :=
  match q.queue_type with
  | PackageQueueType.FIFO => q.items
  | PackageQueueType.LIFO => q.items.reverse

/-- Push the packages of a list one after the other, first element first. -/
def push_all (q : PackageQueue) (ps : List Package) : PackageQueue :=
  ps.foldl push q

/-- Pop until the queue is empty, `while (!q.empty()) out.push_back(q.pop())`; the
packages in the order they came out. -/
def drain (q : PackageQueue) : List Package :=
  match h : q.pop with
  | none => []
  | some (p, q') => p :: drain q'
termination_by q.size
decreasing_by
  unfold pop at h
  cases hq : q.queue_type <;> rw [hq] at h <;> simp only at h
  · cases hi : q.items with
    | nil => rw [hi] at h; simp at h
    | cons a rest =>
      rw [hi] at h
      simp only [Option.some.injEq, Prod.mk.injEq] at h
      rw [← h.2]
      simp [size, hi]
  · cases hl : q.items.getLast? with
    | none => rw [hl] at h; simp at h
    | some a =>
      rw [hl] at h
      simp only [Option.some.injEq, Prod.mk.injEq] at h
      rw [← h.2]
      have hne : q.items ≠ [] := by
        intro e
        rw [e] at hl
        simp at hl
      simp only [size, List.length_dropLast]
      have : 0 < q.items.length := List.length_pos.mpr hne
      omega

end PackageQueue

/-! ## Nodes -/

/-- Modelled from the spec: `ReceiverType`, the kind of a node that can receive (a worker
or a storehouse). -/
inductive ReceiverType where
  | WORKER : ReceiverType
  | STOREHOUSE : ReceiverType
  deriving DecidableEq, Repr

/-- Modelled from the spec: what an `IPackageReceiver*` held in a preference map stands
for (nodes.hpp is not among the files embedded here): a non-owning handle on a worker
or a storehouse, "a stable (kind, id) handle". -/
structure IPackageReceiver where
  receiver_type : ReceiverType
  id : ElementID
  deriving DecidableEq, Repr

/-- Modelled from the spec: `get_receiver_type()`, the kind of the node behind the handle. -/
def IPackageReceiver.get_receiver_type (r : IPackageReceiver) : ReceiverType := r.receiver_type

/-- Modelled from the spec: `get_id()`, the id of the node behind the handle. -/
def IPackageReceiver.get_id (r : IPackageReceiver) : ElementID := r.id

/-- Modelled from the spec: `ReceiverPreferences`, "a mapping receiver-handle →
probability". The list is the mapping in its iteration order; probabilities are kept
as exact rationals. -/
structure ReceiverPreferences where
  preferences : List (IPackageReceiver × ℚ)
  deriving DecidableEq

namespace ReceiverPreferences

/-- Modelled from the spec: `get_preferences()`, "read-only view of the mapping", as
iterated by `for (auto const& pref : get_preferences())`. -/
def get_preferences (rp : ReceiverPreferences) : List (IPackageReceiver × ℚ) := rp.preferences

/-- Modelled from the spec: the walk of `choose()`: "walks the ordered mapping accumulating
probabilities, and returns the first receiver whose running total strictly exceeds `r`". -/
def choose_walk (r : ℚ) : ℚ → List (IPackageReceiver × ℚ) → Option IPackageReceiver
  | _, [] => none
  | acc, (rcv, p) :: rest => if r < acc + p then some rcv else choose_walk r (acc + p) rest

/-- Modelled from the spec: `choose()` for the drawn value `r`; `none` is the failure
NoReceiver. -/
def choose_receiver (rp : ReceiverPreferences) (r : ℚ) : Option IPackageReceiver :=
  choose_walk r 0 rp.preferences

end ReceiverPreferences

/-- Modelled from the spec: `PackageSender`, the part shared by ramps and workers: the
sending-buffer `buffer_` (an optional Package) and the receiver preferences. -/
structure PackageSender where
  receiver_preferences : ReceiverPreferences
  buffer : Option Package
  deriving DecidableEq

namespace PackageSender

/-- Modelled from the spec: `get_receiver_preferences()`. -/
def get_receiver_preferences (s : PackageSender) : ReceiverPreferences := s.receiver_preferences

/-- Modelled from the spec: `get_sending_buffer()`, the sending-buffer. -/
def get_sending_buffer (s : PackageSender) : Option Package := s.buffer

/-- Modelled from the spec: whether `send_package()` draws from the probability generator:
it does when there is a package to send and somewhere to send it. -/
def draws (s : PackageSender) : Bool :=
  s.buffer.isSome && !s.receiver_preferences.preferences.isEmpty

/-- Modelled from the spec: `send_package()`: "if the sending-buffer holds a Package and
`preferences` is non-empty, transfer it to the chosen receiver and clear the buffer";
otherwise a no-op. `r` is the value the generator yields if it is drawn. The result is
the sender afterwards and the transfer made, if any. -/
def send_package (s : PackageSender) (r : ℚ) :
    PackageSender × Option (IPackageReceiver × Package) :=
  match s.buffer with
  | none => (s, none)
  | some p =>
    if s.receiver_preferences.preferences.isEmpty then (s, none)
    else
      match s.receiver_preferences.choose_receiver r with
      | none => (s, none)
      | some rcv => ({ s with buffer := none }, some (rcv, p))

end PackageSender

/-- Modelled from the spec: `Ramp` (LoadingRamp): id, delivery_interval ≥ 1,
sending-buffer and receiver preferences. -/
structure Ramp extends PackageSender where
  id : ElementID
  delivery_interval : TimeOffset
  deriving DecidableEq

namespace Ramp

/-- Modelled from the spec: `Ramp::get_id()`. -/
def get_id (r : Ramp) : ElementID := r.id

/-- Modelled from the spec: `get_delivery_interval()`. -/
def get_delivery_interval (r : Ramp) : TimeOffset := r.delivery_interval

/-- Modelled from the spec: `deliver_goods(t)`: "if `(t − 1) mod delivery_interval == 0`,
create a new Package and place it in the sending-buffer; otherwise do nothing". The
new package takes its id from the process-wide counter `next_id`, which is returned
advanced. -/
def deliver_goods (r : Ramp) (t : Time) (next_id : ElementID) : Ramp × ElementID :=
  if (t - 1) % r.delivery_interval = 0 then
    ({ r with buffer := some { id := next_id } }, next_id + 1)
  else (r, next_id)

end Ramp

/-- Modelled from the spec: `Worker`: id, processing_duration ≥ 1, input queue,
processing-buffer, sending-buffer, processing_start_time and receiver preferences. -/
structure Worker extends PackageSender where
  id : ElementID
  processing_duration : TimeOffset
  queue : PackageQueue
  processing_buffer : Option Package
  processing_start_time : Option Time
  deriving DecidableEq

namespace Worker

/-- Modelled from the spec: `Worker::get_id()`. -/
def get_id (w : Worker) : ElementID := w.id

/-- Modelled from the spec: `get_processing_duration()`. -/
def get_processing_duration (w : Worker) : TimeOffset := w.processing_duration

/-- Modelled from the spec: `get_queue()`, the input queue. -/
def get_queue (w : Worker) : PackageQueue := w.queue

/-- Modelled from the spec: `get_processing_buffer()`, the work-in-progress. -/
def get_processing_buffer (w : Worker) : Option Package := w.processing_buffer

/-- Modelled from the spec: `get_product_processing_start_time()`, the turn at which the
package in the processing-buffer was taken up. The spec does not say what the getter
yields while no package is being processed; 0 stands for that case. -/
def get_product_processing_start_time (w : Worker) : Time := w.processing_start_time.getD 0

/-- Modelled from the spec: the worker's input queue from `cbegin()` to `cend()`, which
are those of its queue. -/
def queue_iter (w : Worker) : List Package := w.queue.iter

/-- Modelled from the spec: "`receive(p)`: push `p` onto the input queue". -/
def receive_package (w : Worker) (p : Package) : Worker :=
  { w with queue := w.queue.push p }

/-- Modelled from the spec: step 1 of `work(t)`: "If processing-buffer is empty and input queue
is non-empty, pop the queue into processing-buffer and set `processing_start_time = t`". -/
def take_up (w : Worker) (t : Time) : Worker :=
  match w.processing_buffer with
  | some _ => w
  | none =>
    match w.queue.pop with
    | none => w
    | some (p, q) => { w with queue := q, processing_buffer := some p, processing_start_time := some t }

/-- Modelled from the spec: step 2 of `work(t)`: "If processing-buffer is non-empty and
`t − processing_start_time + 1 ≥ processing_duration`, move the package from
processing-buffer to sending-buffer, clear processing-buffer, clear start time". -/
def finish (w : Worker) (t : Time) : Worker :=
  match w.processing_buffer, w.processing_start_time with
  | some p, some s =>
    if w.processing_duration ≤ t - s + 1 then
      { w with buffer := some p, processing_buffer := none, processing_start_time := none }
    else w
  | _, _ => w

/-- Modelled from the spec: `do_work(t)`, phase 3 for one worker: step 1 then step 2. -/
def do_work (w : Worker) (t : Time) : Worker := finish (take_up w t) t

end Worker

/-- Modelled from the spec: `Storehouse`: id and stock, "ordered list of Packages". -/
structure Storehouse where
  id : ElementID
  stock : List Package
  deriving DecidableEq, Repr

namespace Storehouse

/-- Modelled from the spec: `Storehouse::get_id()`. -/
def get_id (s : Storehouse) : ElementID := s.id

/-- Modelled from the spec: the stock from `cbegin()` to `cend()`, "iteration exposes stock
in insertion order". -/
def stock_iter (s : Storehouse) : List Package := s.stock

/-- Modelled from the spec: "`receive(p)` appends to stock". -/
def receive_package (s : Storehouse) (p : Package) : Storehouse :=
  { s with stock := s.stock ++ [p] }

end Storehouse

/-! ## The factory -/

/-- Modelled from the spec: `Factory` (factory.hpp is not among the files embedded here),
"three disjoint collections keyed by id, one per node kind". Each list is a collection
in the order its iterators (`ramp_cbegin()` ... `ramp_cend()`, and so on) visit it. -/
structure Factory where
  ramps : List Ramp
  workers : List Worker
  storehouses : List Storehouse
  deriving DecidableEq

namespace Factory

/-- Modelled from the spec: `find_ramp_by_id`, "typed lookup; returns a handle or a
not-found sentinel" (`none` is `ramp_cend()`). -/
def find_ramp_by_id (f : Factory) (id : ElementID) : Option Ramp :=
  f.ramps.find? (fun r => r.get_id = id)

/-- Modelled from the spec: `find_worker_by_id`. -/
def find_worker_by_id (f : Factory) (id : ElementID) : Option Worker :=
  f.workers.find? (fun w => w.get_id = id)

/-- Modelled from the spec: `find_storehouse_by_id`. -/
def find_storehouse_by_id (f : Factory) (id : ElementID) : Option Storehouse :=
  f.storehouses.find? (fun s => s.get_id = id)

/-- Modelled from the spec: the invariant kept by `add_ramp` / `add_worker` / `add_storehouse`,
which "reject duplicate ids within the same kind": ids are unique per node kind. -/
def unique_ids (f : Factory) : Prop :=
  (f.ramps.map Ramp.get_id).Nodup ∧ (f.workers.map Worker.get_id).Nodup ∧
    (f.storehouses.map Storehouse.get_id).Nodup

instance (f : Factory) : Decidable f.unique_ids := by
  unfold unique_ids
  infer_instance

end Factory

/-- The ids in non-descending order, as left by `std::sort(ids.begin(), ids.end())` on a
`std::vector<ElementID>`; it is how a traversal "in ascending id order" gets its order. -/
def sort_ids (ids : List ElementID) : List ElementID :=
  ids.insertionSort (fun a b => a ≤ b)

/-! ## The three phases of a turn and the consistency check -/

/-- Modelled from the spec: the factory together with the two process-wide sources the
phases use: the counter that numbers newly created packages ("a process-wide
monotonically increasing counter") and the count of values drawn so far from the
probability generator. -/
structure Process where
  factory : Factory
  next_package_id : ElementID
  draws : Nat
  deriving DecidableEq

namespace Factory

/-- Modelled from the spec: a ramp changed in place (nodes are owned by the factory and
keyed by id). -/
def update_ramp (f : Factory) (r : Ramp) : Factory :=
  { f with ramps := f.ramps.map (fun x => if x.id = r.id then r else x) }

/-- Modelled from the spec: a worker changed in place. -/
def update_worker (f : Factory) (w : Worker) : Factory :=
  { f with workers := f.workers.map (fun x => if x.id = w.id then w else x) }

/-- Modelled from the spec: the node behind a receiver handle receives the package: a worker
pushes it onto its input queue, a storehouse appends it to its stock. (A handle that
resolves to no node does not occur in a factory built through its mutators; the package then
reaches no node.) -/
def receive_package (f : Factory) (rcv : IPackageReceiver) (p : Package) : Factory :=
  match rcv.receiver_type with
  | ReceiverType.WORKER =>
    let ws := f.workers.map (fun w => if w.id = rcv.id then w.receive_package p else w)
    { f with workers := ws }
  | ReceiverType.STOREHOUSE =>
    let ss := f.storehouses.map (fun s => if s.id = rcv.id then s.receive_package p else s)
    { f with storehouses := ss }

/-- Modelled from the spec: the receivers a sender may send to, the edges of the
"receiver graph". -/
def receivers_of (s : PackageSender) : List IPackageReceiver :=
  s.receiver_preferences.preferences.map Prod.fst

/-- Modelled from the spec: one round of the forward sweep: the workers reached so far, and
those a reached worker sends to. -/
def forward_step (f : Factory) (reached : List ElementID) : List ElementID :=
  (f.workers.filter (fun w => decide (w.id ∈ reached) ||
    f.workers.any (fun v => decide (v.id ∈ reached) &&
      decide ((⟨ReceiverType.WORKER, w.id⟩ : IPackageReceiver) ∈ receivers_of v.toPackageSender)))).map
    Worker.get_id

/-- Modelled from the spec: the forward reachability sweep from the ramps: the ids of the
workers reachable from at least one ramp through the receiver graph. -/
def reachable_from_ramps (f : Factory) : List ElementID :=
  Nat.iterate (forward_step f) f.workers.length
    ((f.workers.filter (fun w => f.ramps.any (fun r =>
      decide ((⟨ReceiverType.WORKER, w.id⟩ : IPackageReceiver) ∈ receivers_of r.toPackageSender)))).map
      Worker.get_id)

/-- Modelled from the spec: one round of the backward sweep: the workers known to reach a
storehouse, and those that send to such a worker. -/
def backward_step (f : Factory) (good : List ElementID) : List ElementID :=
  (f.workers.filter (fun w => decide (w.id ∈ good) ||
    (receivers_of w.toPackageSender).any (fun rcv =>
      decide (rcv.receiver_type = ReceiverType.WORKER) && decide (rcv.id ∈ good)))).map
    Worker.get_id

/-- Modelled from the spec: the backward sweep from the storehouses: the ids of the workers that
can reach at least one storehouse of the factory through the receiver graph. -/
def reaching_storehouse (f : Factory) : List ElementID :=
  Nat.iterate (backward_step f) f.workers.length
    ((f.workers.filter (fun w => (receivers_of w.toPackageSender).any (fun rcv =>
      decide (rcv.receiver_type = ReceiverType.STOREHOUSE) &&
        f.storehouses.any (fun s => decide (s.id = rcv.id))))).map Worker.get_id)

/-- Modelled from the spec: `is_consistent()`, which "implements the four rules by a
forward reachability sweep from ramps and a backward sweep from storehouses": every
ramp has a receiver, every worker has a receiver, every worker is reachable from a
ramp, every worker can reach a storehouse. -/
def is_consistent (f : Factory) : Bool :=
  f.ramps.all (fun r => !r.receiver_preferences.preferences.isEmpty) &&
  f.workers.all (fun w => !w.receiver_preferences.preferences.isEmpty) &&
  f.workers.all (fun w => decide (w.id ∈ reachable_from_ramps f)) &&
  f.workers.all (fun w => decide (w.id ∈ reaching_storehouse f))

end Factory

namespace Process

/-- Modelled from the spec: phase 1 for the ramp of the given id: its `deliver_goods(t)`. -/
def deliver_at (t : Time) (s : Process) (id : ElementID) : Process :=
  match s.factory.find_ramp_by_id id with
  | none => s
  | some r =>
    let res := r.deliver_goods t s.next_package_id
    { s with factory := s.factory.update_ramp res.1, next_package_id := res.2 }

/-- Modelled from the spec: `do_deliveries(t)`, "phase 1: every ramp's `deliver(t)`", the
ramps taken in ascending id order. -/
def do_deliveries (s : Process) (t : Time) : Process :=
  (sort_ids (s.factory.ramps.map Ramp.get_id)).foldl (deliver_at t) s

/-- Modelled from the spec: the effect of one `send_package()` on the process: the sender
written back by `put`, the package handed to the chosen receiver, the generator advanced if
it was drawn. -/
def pass_on (s : Process) (sender : PackageSender) (g : ℚ)
    (put : Factory → PackageSender → Factory) : Process :=
  let res := sender.send_package g
  let f1 := put s.factory res.1
  let f2 := match res.2 with
    | none => f1
    | some (rcv, p) => f1.receive_package rcv p
  { s with factory := f2, draws := if sender.draws then s.draws + 1 else s.draws }

/-- Modelled from the spec: phase 2 for the ramp of the given id: its `send_package()`. -/
def send_from_ramp (gen : Nat → ℚ) (s : Process) (id : ElementID) : Process :=
  match s.factory.find_ramp_by_id id with
  | none => s
  | some r =>
    pass_on s r.toPackageSender (gen s.draws)
      (fun f snd => f.update_ramp { r with toPackageSender := snd })

/-- Modelled from the spec: phase 2 for the worker of the given id: its `send_package()`. -/
def send_from_worker (gen : Nat → ℚ) (s : Process) (id : ElementID) : Process :=
  match s.factory.find_worker_by_id id with
  | none => s
  | some w =>
    pass_on s w.toPackageSender (gen s.draws)
      (fun f snd => f.update_worker { w with toPackageSender := snd })

/-- Modelled from the spec: `do_package_passing()`, "phase 2: every ramp's and worker's
`send`": the ramps, then the workers, each kind in ascending id order. `gen i` is the
`i`-th value the probability generator yields. -/
def do_package_passing (gen : Nat → ℚ) (s : Process) : Process :=
  let s1 := (sort_ids (s.factory.ramps.map Ramp.get_id)).foldl (send_from_ramp gen) s
  (sort_ids (s1.factory.workers.map Worker.get_id)).foldl (send_from_worker gen) s1

/-- Modelled from the spec: phase 3 for the worker of the given id: its `do_work(t)`. -/
def work_at (t : Time) (s : Process) (id : ElementID) : Process :=
  match s.factory.find_worker_by_id id with
  | none => s
  | some w => { s with factory := s.factory.update_worker (w.do_work t) }

/-- Modelled from the spec: `do_work(t)`, "phase 3: every worker's `work(t)`", the workers
taken in ascending id order. -/
def do_work (s : Process) (t : Time) : Process :=
  (sort_ids (s.factory.workers.map Worker.get_id)).foldl (work_at t) s

end Process

/-! ## Reports (`reports.cpp`) -/

/-- The string chosen by
`pref.first->get_receiver_type() == ReceiverType::WORKER ? "worker" : "storehouse"`. -/
def type_str (r : IPackageReceiver) : String :=
  if r.get_receiver_type = ReceiverType.WORKER then "worker" else "storehouse"

/-- The comparison lambda handed to `std::sort` for the receivers:
`if (a.first != b.first) return a.first < b.first; return a.second < b.second;`. -/
def receiver_less (a b : String × ElementID) : Prop :=
  if a.1 ≠ b.1 then a.1 < b.1 else a.2 < b.2

instance (a b : String × ElementID) : Decidable (receiver_less a b) := by
  unfold receiver_less
  infer_instance

/-- The call `std::sort(receivers.begin(), receivers.end(), less)`: the pairs rearranged so
that no later element is less than an earlier one. -/
def sort_receivers (receivers : List (String × ElementID)) : List (String × ElementID) :=
  receivers.insertionSort (fun a b => ¬ receiver_less b a)

/-- The pair `{type_str, pref.first->get_id()}` pushed for one entry of a preference map. -/
def receiver_key (pref : IPackageReceiver × ℚ) : String × ElementID :=
  (type_str pref.1, pref.1.get_id)

/-- The vector `receivers` of a sender after it was filled from the preference map and
sorted. -/
def sorted_receivers (rp : ReceiverPreferences) : List (String × ElementID) :=
  sort_receivers (rp.get_preferences.map receiver_key)

/-- The loop `for (auto const& r : receivers) os << "    " << r.first << " #" << r.second << "\n";`. -/
def write_receivers (os : String) (receivers : List (String × ElementID)) : String :=
  receivers.foldl (fun os r => os ++ "    " ++ r.1 ++ " #" ++ toString r.2 ++ "\n") os

/-- The body of the ramp loop of `generate_structure_report`. -/
def write_ramp (os : String) (_id : ElementID) (it : Ramp) : String :=
  let os := os ++ "\nLOADING RAMP #" ++ toString it.get_id ++ "\n"
  let os := os ++ "  Delivery interval: " ++ toString it.get_delivery_interval ++ "\n"
  let os := os ++ "  Receivers:\n"
  write_receivers os (sorted_receivers it.get_receiver_preferences)

/-- The body of the worker loop of `generate_structure_report`. -/
def write_worker (os : String) (_id : ElementID) (it : Worker) : String :=
  let os := os ++ "\nWORKER #" ++ toString it.get_id ++ "\n"
  let os := os ++ "  Processing time: " ++ toString it.get_processing_duration ++ "\n"
  let os := os ++ "  Queue type: " ++
    (if it.get_queue.get_queue_type = PackageQueueType.FIFO then "FIFO" else "LIFO") ++ "\n"
  let os := os ++ "  Receivers:\n"
  write_receivers os (sorted_receivers it.get_receiver_preferences)

/-- A loop `for (auto id : ids) { auto it = find(id); ... }` whose body writes the node
found to the stream. Dereferencing the not-found sentinel has no defined result
(`none`). -/
def for_each_id {α : Type} (find : ElementID → Option α)
    (body : String → ElementID → α → String) : List ElementID → String → Option String
  | [], os => some os
  | id :: rest, os =>
    match find id with
    | none => none
    | some it => for_each_id find body rest (body os id it)

/-- The function `generate_structure_report(const Factory& factory, std::ostream& os)`;
the result is the stream afterwards. -/
def generate_structure_report (factory : Factory) (os : String) : Option String := do
  let os := os ++ "== LOADING RAMPS ==\n"
  let ramp_ids := sort_ids (factory.ramps.map Ramp.get_id)
  let os ← for_each_id factory.find_ramp_by_id write_ramp ramp_ids os
  let os := os ++ "\n\n== WORKERS ==\n"
  let worker_ids := sort_ids (factory.workers.map Worker.get_id)
  let os ← for_each_id factory.find_worker_by_id write_worker worker_ids os
  let os := os ++ "\n\n== STOREHOUSES ==\n"
  let storehouse_ids := sort_ids (factory.storehouses.map Storehouse.get_id)
  let os := storehouse_ids.foldl (fun os id => os ++ "\nSTOREHOUSE #" ++ toString id ++ "\n") os
  pure (os ++ "\n")

/-- The loop
`for (auto qit = first; qit != last; ++qit) os << "#" << qit->get_id() << (std::next(qit) == last ? "" : ", ");`
over the packages from `first` to `last`. -/
def write_package_ids (os : String) : List Package → String
  | [] => os
  | [p] => os ++ "#" ++ toString p.get_id ++ ""
  | p :: q :: rest => write_package_ids (os ++ "#" ++ toString p.get_id ++ ", ") (q :: rest)

/-- The `PBuffer` part of the worker loop of `generate_simulation_turn_report`. The value
`t - it->get_product_processing_start_time() + 1` is computed in the integers, so it is
not cut off at zero when `t` precedes the start time. -/
def write_pbuffer (os : String) (it : Worker) (t : Time) : String :=
  let os := os ++ "  PBuffer: "
  match it.get_processing_buffer with
  | some p =>
    os ++ "#" ++ toString p.get_id ++ " (pt = " ++
      toString ((t : Int) - (it.get_product_processing_start_time : Int) + 1) ++ ")\n"
  | none => os ++ "(empty)\n"

/-- The `Queue` part of the worker loop of `generate_simulation_turn_report`. -/
def write_queue (os : String) (it : Worker) : String :=
  let os := os ++ "  Queue: "
  if it.queue_iter = [] then os ++ "(empty)\n"
  else write_package_ids os it.queue_iter ++ "\n"

/-- The `SBuffer` part of the worker loop of `generate_simulation_turn_report`. -/
def write_sbuffer (os : String) (it : Worker) : String :=
  let os := os ++ "  SBuffer: "
  match it.get_sending_buffer with
  | some p => os ++ "#" ++ toString p.get_id ++ "\n"
  | none => os ++ "(empty)\n"

/-- The body of the worker loop of `generate_simulation_turn_report`. -/
def write_worker_state (t : Time) (os : String) (_id : ElementID) (it : Worker) : String :=
  let os := os ++ "\nWORKER #" ++ toString it.get_id ++ "\n"
  let os := write_pbuffer os it t
  let os := write_queue os it
  write_sbuffer os it

/-- The body of the storehouse loop of `generate_simulation_turn_report`. -/
def write_storehouse_state (os : String) (id : ElementID) (it : Storehouse) : String :=
  let os := os ++ "\nSTOREHOUSE #" ++ toString id ++ "\n"
  let os := os ++ "  Stock: "
  if it.stock_iter = [] then os ++ "(empty)\n"
  else write_package_ids os it.stock_iter ++ "\n"

/-- The function
`generate_simulation_turn_report(const Factory& factory, std::ostream& os, Time t)`;
the result is the stream afterwards. -/
def generate_simulation_turn_report (factory : Factory) (os : String) (t : Time) :
    Option String := do
  let os := os ++ "=== [ Turn: " ++ toString t ++ " ] ===\n"
  let os := os ++ "\n== WORKERS ==\n"
  let worker_ids := sort_ids (factory.workers.map Worker.get_id)
  let os ← for_each_id factory.find_worker_by_id (write_worker_state t) worker_ids os
  let os := os ++ "\n\n== STOREHOUSES ==\n"
  let storehouse_ids := sort_ids (factory.storehouses.map Storehouse.get_id)
  let os ← for_each_id factory.find_storehouse_by_id write_storehouse_state storehouse_ids os
  pure (os ++ "\n")

/-! ### The text of a report, piece by piece -/

/-- The strings of a list written one after the other. -/
def concat_all : List String → String
  | [] => ""
  | x :: xs => x ++ concat_all xs

/-- One line under `Receivers:`. -/
def receiver_line (r : String × ElementID) : String :=
  "    " ++ r.1 ++ " #" ++ toString r.2 ++ "\n"

/-- The lines under `Receivers:` of a sender. -/
def receivers_text (rp : ReceiverPreferences) : String :=
  concat_all ((sorted_receivers rp).map receiver_line)

/-- What the structure report writes for one ramp. -/
def ramp_text (it : Ramp) : String :=
  "\nLOADING RAMP #" ++ toString it.get_id ++ "\n" ++
  "  Delivery interval: " ++ toString it.get_delivery_interval ++ "\n" ++
  "  Receivers:\n" ++ receivers_text it.get_receiver_preferences

/-- What the structure report writes for one worker. -/
def worker_text (it : Worker) : String :=
  "\nWORKER #" ++ toString it.get_id ++ "\n" ++
  "  Processing time: " ++ toString it.get_processing_duration ++ "\n" ++
  "  Queue type: " ++
    (if it.get_queue.get_queue_type = PackageQueueType.FIFO then "FIFO" else "LIFO") ++ "\n" ++
  "  Receivers:\n" ++ receivers_text it.get_receiver_preferences

/-- What the structure report writes for one storehouse. -/
def storehouse_text (it : Storehouse) : String :=
  "\nSTOREHOUSE #" ++ toString it.get_id ++ "\n"

/-- The ids of the packages of a list, each after a `#`, separated by `", "`, with no
separator after the last. -/
def package_ids_text (l : List Package) : String :=
  concat_all (List.intersperse ", " (l.map (fun p => "#" ++ toString p.get_id)))

/-- The `PBuffer` line of a worker at turn `t`. -/
def pbuffer_text (it : Worker) (t : Time) : String :=
  match it.get_processing_buffer with
  | some p =>
    "  PBuffer: #" ++ toString p.get_id ++ " (pt = " ++
      toString ((t : Int) - (it.get_product_processing_start_time : Int) + 1) ++ ")\n"
  | none => "  PBuffer: (empty)\n"

/-- The `Queue` line of a worker whose input queue iterates as `l`. -/
def queue_text (l : List Package) : String :=
  "  Queue: " ++ (if l = [] then "(empty)" else package_ids_text l) ++ "\n"

/-- The `SBuffer` line of a worker. -/
def sbuffer_text (it : Worker) : String :=
  match it.get_sending_buffer with
  | some p => "  SBuffer: #" ++ toString p.get_id ++ "\n"
  | none => "  SBuffer: (empty)\n"

/-- What the turn report writes for one worker. -/
def worker_state_text (t : Time) (it : Worker) : String :=
  "\nWORKER #" ++ toString it.get_id ++ "\n" ++ pbuffer_text it t ++
    queue_text it.queue_iter ++ sbuffer_text it

/-- What the turn report writes for one storehouse. -/
def storehouse_state_text (it : Storehouse) : String :=
  "\nSTOREHOUSE #" ++ toString it.get_id ++ "\n" ++
  "  Stock: " ++ (if it.stock_iter = [] then "(empty)" else package_ids_text it.stock_iter) ++ "\n"

/-- The nodes of a collection in the order a report visits them: the sorted ids, each
looked up in the collection. -/
def nodes_by_id {α : Type} (get_id : α → ElementID) (l : List α) : List α :=
  (sort_ids (l.map get_id)).filterMap (fun id => l.find? (fun x => get_id x = id))

/-- The text of a structure report that visits the ramps `rs`, the workers `ws` and the
storehouses `ss` in the order of these lists. -/
def structure_report_text (rs : List Ramp) (ws : List Worker) (ss : List Storehouse) : String :=
  "== LOADING RAMPS ==\n" ++ concat_all (rs.map ramp_text) ++
  "\n\n== WORKERS ==\n" ++ concat_all (ws.map worker_text) ++
  "\n\n== STOREHOUSES ==\n" ++ concat_all (ss.map storehouse_text) ++ "\n"

/-- The text of a report of turn `t` that visits the workers `ws` and the storehouses `ss`
in the order of these lists. -/
def turn_report_text (t : Time) (ws : List Worker) (ss : List Storehouse) : String :=
  "=== [ Turn: " ++ toString t ++ " ] ===\n" ++
  "\n== WORKERS ==\n" ++ concat_all (ws.map (worker_state_text t)) ++
  "\n\n== STOREHOUSES ==\n" ++ concat_all (ss.map storehouse_state_text) ++ "\n"

/-- The order "by (kind name, id)": `a` may stand before `b` when its kind name is
smaller, or the kind names are equal and its id is not larger. -/
def receiver_le (a b : String × ElementID) : Prop :=
  a.1 < b.1 ∨ (a.1 = b.1 ∧ a.2 ≤ b.2)

/-! ## The turn scheduler (`simulation.cpp`) -/

/-- The member functions of `Factory` that `simulate` calls. `Factory` itself is not
defined in `simulation.cpp`; the scheduler is embedded over any state type `F`
that offers these operations. -/
structure FactoryOps (F : Type) where
  is_consistent : F → Bool
  do_deliveries : F → Time → F
  do_package_passing : F → F
  do_work : F → Time → F

/-- How a call ended: it returned, or it left by `throw std::logic_error(what)`. -/
inductive Outcome where
  | returned : Outcome
  | threw (what : String) : Outcome
  deriving DecidableEq, Repr

/-- The factory as the call leaves it (it is passed by reference) and how the call ended. -/
structure SimResult (F : Type) where
  factory : F
  outcome : Outcome

/-- The body of `for (Time t = 1; t <= d; ++t)` in `simulate`, started at turn `t`. -/
def simulate_loop {F : Type} (ops : FactoryOps F) (rf : F → Time → F) (d : TimeOffset)
    (t : Time) (f : F) : F :=
  if t ≤ d then
    let f1 := ops.do_deliveries f t
    let f2 := ops.do_package_passing f1
    let f3 := ops.do_work f2 t
    let f4 := rf f3 t
    simulate_loop ops rf d (t + 1) f4
  else f
termination_by d + 1 - t
decreasing_by
  unfold Time TimeOffset at *
  omega

/-- The function `simulate(Factory& f, TimeOffset d, std::function<void(Factory&, Time)> rf)`. -/
def simulate {F : Type} (ops : FactoryOps F) (f : F) (d : TimeOffset) (rf : F → Time → F) :
    SimResult F :=
  if !ops.is_consistent f then
    { factory := f, outcome := Outcome.threw "Factory is inconsistent" }
  else
    { factory := simulate_loop ops rf d 1 f, outcome := Outcome.returned }

/-- The operations of `Factory` as the scheduler sees them, on a process whose
probability generator yields `gen 0, gen 1, ...`. -/
def factory_ops (gen : Nat → ℚ) : FactoryOps Process where
  is_consistent := fun s => s.factory.is_consistent
  do_deliveries := Process.do_deliveries
  do_package_passing := Process.do_package_passing gen
  do_work := Process.do_work

/-- The factory of the test `SimulationTest.FullCycle`, Ramp(id 1, interval 1) →
Worker(id 1, duration 1, FIFO) → Storehouse(id 1), with the given contents: the ramp's
sending buffer, the worker's queue, processing buffer, start time and sending buffer,
and the storehouse's stock. -/
def full_cycle (rb : Option Package) (q : List Package) (pb : Option Package)
    (st : Option Time) (sb : Option Package) (stock : List Package) : Factory :=
  { ramps := [
      { receiver_preferences :=
          { preferences := [({ receiver_type := ReceiverType.WORKER, id := 1 }, 1)] }
        buffer := rb
        id := 1
        delivery_interval := 1 }],
    workers := [
      { receiver_preferences :=
          { preferences := [({ receiver_type := ReceiverType.STOREHOUSE, id := 1 }, 1)] }
        buffer := sb
        id := 1
        processing_duration := 1
        queue := { queue_type := PackageQueueType.FIFO, items := q }
        processing_buffer := pb
        processing_start_time := st }],
    storehouses := [{ id := 1, stock := stock }] }

/-- The full-cycle factory before the first turn, all buffers empty, in a process whose
package counter stands at `n` and whose generator has been drawn `k` times. -/
def full_cycle_start (n k : Nat) : Process :=
  { factory := full_cycle none [] none none none [], next_package_id := n, draws := k }

/-- The stock of the storehouse of the given id, if the factory has one. -/
def stock_of (s : Process) (id : ElementID) : Option (List Package) :=
  (s.factory.find_storehouse_by_id id).map Storehouse.stock

/-- The sending buffer of the ramp of the given id. -/
def ramp_buffer_of (s : Process) (id : ElementID) : Option Package :=
  (s.factory.find_ramp_by_id id).bind (fun r => r.buffer)

/-- The sending buffer of the worker of the given id. -/
def worker_buffer_of (s : Process) (id : ElementID) : Option Package :=
  (s.factory.find_worker_by_id id).bind (fun w => w.buffer)

/-- The observer of the test `SimulationTest.FullCycle`, `[](Factory&, Time) {}`. -/
def no_observer (s : Process) (_t : Time) : Process := s

/-! ## Example factories -/

/-- An example worker: LIFO queue holding 4 then 5, package 7 in process since turn 2. -/
def demo_worker_busy : Worker :=
  { receiver_preferences := { preferences := [] }, buffer := none, id := 2,
    processing_duration := 3,
    queue := { queue_type := PackageQueueType.LIFO, items := [{ id := 4 }, { id := 5 }] },
    processing_buffer := some { id := 7 }, processing_start_time := some 2 }

/-- An example worker: idle, empty FIFO queue, package 3 waiting to be sent. -/
def demo_worker_idle : Worker :=
  { receiver_preferences := { preferences := [] }, buffer := some { id := 3 }, id := 1,
    processing_duration := 1,
    queue := { queue_type := PackageQueueType.FIFO, items := [] },
    processing_buffer := none, processing_start_time := none }

/-- An example ramp with three receivers, iterated in an unsorted order. -/
def demo_ramp : Ramp :=
  { receiver_preferences := { preferences :=
      [({ receiver_type := ReceiverType.WORKER, id := 2 }, 1 / 3),
       ({ receiver_type := ReceiverType.STOREHOUSE, id := 1 }, 1 / 3),
       ({ receiver_type := ReceiverType.WORKER, id := 1 }, 1 / 3)] },
    buffer := none, id := 1, delivery_interval := 2 }

/-- An example factory. -/
def demo_factory : Factory :=
  { ramps := [demo_ramp], workers := [demo_worker_busy, demo_worker_idle],
    storehouses := [{ id := 1, stock := [{ id := 1 }, { id := 2 }] }] }

/-- The example factory with its two workers stored in the other order. -/
def demo_factory_swapped : Factory :=
  { ramps := [demo_ramp], workers := [demo_worker_idle, demo_worker_busy],
    storehouses := [{ id := 1, stock := [{ id := 1 }, { id := 2 }] }] }

/-- The ramp of the test `RampTest.DeliveryInCorrectRound`: `Ramp ramp(1, 2)` with the
storehouse of id 2 as its only receiver. -/
def test_ramp : Ramp :=
  { receiver_preferences :=
      { preferences := [({ receiver_type := ReceiverType.STOREHOUSE, id := 2 }, 1)] }
    buffer := none
    id := 1
    delivery_interval := 2 }

/-- An example of an inconsistent factory: a single worker with zero receivers. -/
def demo_inconsistent : Process :=
  { factory :=
      { ramps := [],
        workers := [
          { receiver_preferences := { preferences := [] }
            buffer := none
            id := 1
            processing_duration := 1
            queue := { queue_type := PackageQueueType.FIFO, items := [] }
            processing_buffer := none
            processing_start_time := none }],
        storehouses := [{ id := 1, stock := [] }] },
    next_package_id := 1, draws := 0 }

/-! ## The command-line entry point (`main.cpp`) -/

/-- What `main` meets when it runs: whether `factory_structure.txt` opens, and what
`load_factory_structure` yields, a factory or an exception with its `what()`. -/
structure MainEnv (F : Type) where
  input_file_is_open : Bool
  load_factory_structure : Except String F

/-- What `main` leaves behind: its return value and the lines written to `std::cerr`.
(What it writes to `std::cout` and to the saved file does not bear on either.) -/
structure MainResult where
  exit_code : Int
  cerr : List String
  deriving DecidableEq, Repr

/-- The function `main()`. The observer handed to `simulate` only writes turn reports, so
it leaves the factory as it is. -/
def main {F : Type} (ops : FactoryOps F) (env : MainEnv F) : MainResult :=
  if !env.input_file_is_open then
    { exit_code := 1, cerr := ["Error: Could not open factory_structure.txt"] }
  else
    match env.load_factory_structure with
    | Except.error what => { exit_code := 1, cerr := ["Error: " ++ what] }
    | Except.ok factory =>
      let cerr := if ops.is_consistent factory then [] else ["Warning: Network is inconsistent!"]
      match (simulate ops factory 5 (fun f _ => f)).outcome with
      | Outcome.threw what => { exit_code := 1, cerr := cerr ++ ["Error: " ++ what] }
      | Outcome.returned => { exit_code := 0, cerr := cerr }

/-! ### Recording the calls made on the factory -/

/-- One call made by the scheduler on the factory or on the observer. -/
inductive Call where
  | do_deliveries (t : Time) : Call
  | do_package_passing : Call
  | do_work (t : Time) : Call
  | observer (t : Time) : Call
  deriving DecidableEq, Repr

/-- The same operations, each one also appending itself to a log of calls kept
beside the factory. `is_consistent` only reads the factory. -/
def FactoryOps.logged {F : Type} (ops : FactoryOps F) : FactoryOps (F × List Call) where
  is_consistent := fun s => ops.is_consistent s.1
  do_deliveries := fun s t => (ops.do_deliveries s.1 t, s.2 ++ [Call.do_deliveries t])
  do_package_passing := fun s => (ops.do_package_passing s.1, s.2 ++ [Call.do_package_passing])
  do_work := fun s t => (ops.do_work s.1 t, s.2 ++ [Call.do_work t])

/-- The observer, also appending its invocation to the log. -/
def logged_observer {F : Type} (rf : F → Time → F) : F × List Call → Time → F × List Call :=
  fun s t => (rf s.1 t, s.2 ++ [Call.observer t])

/-- The calls of one turn, in the order of the loop body. -/
def turn_calls (t : Time) : List Call :=
  [Call.do_deliveries t, Call.do_package_passing, Call.do_work t, Call.observer t]

/-- The calls of turns `1, 2, ..., d` in increasing order. -/
def schedule (d : TimeOffset) : List Call :=
  (List.range d).flatMap (fun i => turn_calls (i + 1))

/-- The calls of turns `t, t+1, ..., t+n-1`. -/
def calls_from (t : Time) (n : Nat) : List Call :=
  (List.range n).flatMap (fun i => turn_calls (t + i))

/-! ### Lemmas on the queue -/

namespace PackageQueue

theorem drain_of_pop_none (q : PackageQueue) (h : q.pop = none) : drain q = [] := by
  rw [drain]
  split
  · rfl
  · rename_i p q' h'
    rw [h] at h'
    cases h'

theorem drain_of_pop_some (q q' : PackageQueue) (p : Package) (h : q.pop = some (p, q')) :
    drain q = p :: drain q' := by
  rw [drain]
  split
  · rename_i h'
    rw [h] at h'
    cases h'
  · rename_i p1 q1 h'
    rw [h] at h'
    cases h'
    rfl

theorem push_all_items (q : PackageQueue) (ps : List Package) :
    (push_all q ps).items = q.items ++ ps ∧ (push_all q ps).queue_type = q.queue_type := by
  induction ps generalizing q with
  | nil => simp [push_all]
  | cons a rest ih =>
    have h := ih (q.push a)
    simp only [push_all, List.foldl_cons] at h ⊢
    rw [h.1, h.2]
    simp [push]

theorem drain_fifo (ps : List Package) :
    drain { queue_type := PackageQueueType.FIFO, items := ps } = ps := by
  induction ps with
  | nil => exact drain_of_pop_none _ rfl
  | cons a rest ih =>
    have hp : pop { queue_type := PackageQueueType.FIFO, items := a :: rest } =
        some (a, { queue_type := PackageQueueType.FIFO, items := rest }) := rfl
    rw [drain_of_pop_some _ _ a hp, ih]

theorem drain_lifo (ps : List Package) :
    drain { queue_type := PackageQueueType.LIFO, items := ps } = ps.reverse := by
  induction ps using List.reverseRecOn with
  | nil => exact drain_of_pop_none _ rfl
  | append_singleton rest a ih =>
    have hp : pop { queue_type := PackageQueueType.LIFO, items := rest ++ [a] } =
        some (a, { queue_type := PackageQueueType.LIFO, items := rest }) := by
      simp [pop]
    rw [drain_of_pop_some _ _ a hp, ih]
    simp

theorem iter_eq_drain (q : PackageQueue) : q.iter = drain q := by
  cases q with
  | mk qt items =>
    cases qt
    · simp [iter, drain_fifo]
    · simp [iter, drain_lifo]

end PackageQueue

/-! ### Lemmas on the loop -/

theorem simulate_loop_step {F : Type} (ops : FactoryOps F) (rf : F → Time → F)
    (d : TimeOffset) (t : Time) (f : F) (h : t ≤ d) :
    simulate_loop ops rf d t f =
      simulate_loop ops rf d (t + 1)
        (rf (ops.do_work (ops.do_package_passing (ops.do_deliveries f t)) t) t) := by
  rw [simulate_loop, if_pos h]

theorem simulate_loop_done {F : Type} (ops : FactoryOps F) (rf : F → Time → F)
    (d : TimeOffset) (t : Time) (f : F) (h : d < t) :
    simulate_loop ops rf d t f = f := by
  rw [simulate_loop, if_neg (Nat.not_le.mpr h)]

theorem le_of_add_succ (t n d : Nat) (h : t + (n + 1) = d + 1) : t ≤ d := by omega

theorem lt_of_add_zero (t d : Nat) (h : t + 0 = d + 1) : d < t := by omega

theorem add_succ_shift (t n d : Nat) (h : t + (n + 1) = d + 1) : t + 1 + n = d + 1 := by omega

theorem calls_from_succ (t : Time) (n : Nat) :
    calls_from t (n + 1) = turn_calls t ++ calls_from (t + 1) n := by
  unfold calls_from
  rw [List.range_succ_eq_map]
  simp [List.flatMap_map, Nat.add_assoc, Nat.add_comm 1]

theorem schedule_eq_calls_from (d : TimeOffset) : schedule d = calls_from 1 d := by
  unfold schedule calls_from
  simp [Nat.add_comm]

theorem logged_loop {F : Type} (ops : FactoryOps F) (rf : F → Time → F) (d : TimeOffset) :
    ∀ (n : Nat) (t : Time) (f : F) (log : List Call), t + n = d + 1 →
      simulate_loop ops.logged (logged_observer rf) d t (f, log) =
        (simulate_loop ops rf d t f, log ++ calls_from t n) := by
  intro n
  induction n with
  | zero =>
    intro t f log h
    rw [simulate_loop_done _ _ _ _ _ (lt_of_add_zero t d h),
      simulate_loop_done _ _ _ _ _ (lt_of_add_zero t d h)]
    simp [calls_from]
  | succ n ih =>
    intro t f log h
    rw [simulate_loop_step _ _ _ _ _ (le_of_add_succ t n d h),
      simulate_loop_step ops rf _ _ _ (le_of_add_succ t n d h)]
    have e : logged_observer rf
        (ops.logged.do_work (ops.logged.do_package_passing (ops.logged.do_deliveries (f, log) t)) t) t
        = (rf (ops.do_work (ops.do_package_passing (ops.do_deliveries f t)) t) t,
            log ++ turn_calls t) := by
      simp [FactoryOps.logged, logged_observer, turn_calls]
    rw [e, ih (t + 1) _ _ (add_succ_shift t n d h), calls_from_succ]
    simp

/-! ### Lemmas on the reports -/

theorem concat_all_append (a b : List String) :
    concat_all (a ++ b) = concat_all a ++ concat_all b := by
  induction a with
  | nil => simp [concat_all]
  | cons x xs ih => simp [concat_all, ih, String.append_assoc]

theorem concat_all_split (x : String) (l : List String) (h : x ∈ l) :
    ∃ pre post, concat_all l = pre ++ x ++ post := by
  obtain ⟨a, b, rfl⟩ := List.append_of_mem h
  exact ⟨concat_all a, concat_all b, by
    rw [concat_all_append]
    simp [concat_all, String.append_assoc]⟩

theorem write_receivers_eq (os : String) (rs : List (String × ElementID)) :
    write_receivers os rs = os ++ concat_all (rs.map receiver_line) := by
  induction rs generalizing os with
  | nil => simp [write_receivers, concat_all]
  | cons r rest ih =>
    have h := ih (os ++ "    " ++ r.1 ++ " #" ++ toString r.2 ++ "\n")
    simp only [write_receivers, List.foldl_cons] at h ⊢
    rw [h]
    simp [concat_all, receiver_line, String.append_assoc]

theorem write_ramp_eq (os : String) (id : ElementID) (it : Ramp) :
    write_ramp os id it = os ++ ramp_text it := by
  simp [write_ramp, ramp_text, receivers_text, write_receivers_eq, String.append_assoc]

theorem write_worker_eq (os : String) (id : ElementID) (it : Worker) :
    write_worker os id it = os ++ worker_text it := by
  simp [write_worker, worker_text, receivers_text, write_receivers_eq, String.append_assoc]

theorem write_package_ids_eq (os : String) (l : List Package) :
    write_package_ids os l = os ++ package_ids_text l := by
  induction l generalizing os with
  | nil => simp [write_package_ids, package_ids_text, concat_all]
  | cons p rest ih =>
    cases rest with
    | nil => simp [write_package_ids, package_ids_text, concat_all, String.append_assoc]
    | cons q rest =>
      rw [write_package_ids, ih]
      simp [package_ids_text, concat_all, String.append_assoc]

theorem write_pbuffer_eq (os : String) (it : Worker) (t : Time) :
    write_pbuffer os it t = os ++ pbuffer_text it t := by
  unfold write_pbuffer pbuffer_text
  cases it.get_processing_buffer <;> simp [String.append_assoc]

theorem write_queue_eq (os : String) (it : Worker) :
    write_queue os it = os ++ queue_text it.queue_iter := by
  unfold write_queue queue_text
  by_cases h : it.queue_iter = []
  · simp [h, String.append_assoc]
  · simp [h, write_package_ids_eq, String.append_assoc]

theorem write_sbuffer_eq (os : String) (it : Worker) :
    write_sbuffer os it = os ++ sbuffer_text it := by
  unfold write_sbuffer sbuffer_text
  cases it.get_sending_buffer <;> simp [String.append_assoc]

theorem write_worker_state_eq (t : Time) (os : String) (id : ElementID) (it : Worker) :
    write_worker_state t os id it = os ++ worker_state_text t it := by
  simp [write_worker_state, worker_state_text, write_pbuffer_eq, write_queue_eq,
    write_sbuffer_eq, String.append_assoc]

theorem write_storehouse_state_eq (os : String) (it : Storehouse) :
    write_storehouse_state os it.get_id it = os ++ storehouse_state_text it := by
  unfold write_storehouse_state storehouse_state_text
  by_cases h : it.stock_iter = []
  · simp [h, String.append_assoc]
  · simp [h, write_package_ids_eq, String.append_assoc]

theorem for_each_id_eq {α : Type} (find : ElementID → Option α)
    (body : String → ElementID → α → String) (text : α → String) :
    ∀ (ids : List ElementID) (os : String),
      (∀ id ∈ ids, ∃ x, find id = some x ∧ ∀ os, body os id x = os ++ text x) →
      for_each_id find body ids os = some (os ++ concat_all ((ids.filterMap find).map text)) := by
  intro ids
  induction ids with
  | nil =>
    intro os _
    simp [for_each_id, concat_all]
  | cons id rest ih =>
    intro os h
    obtain ⟨x, hx, hb⟩ := h id (List.mem_cons_self _ _)
    have hr := ih (body os id x) (fun i hi => h i (List.mem_cons_of_mem _ hi))
    rw [hb] at hr
    simp only [for_each_id, hx, List.filterMap_cons, List.map_cons, concat_all]
    rw [hb, hr, String.append_assoc]

theorem find_of_mem_ids {α : Type} (get_id : α → ElementID) (l : List α) (id : ElementID)
    (h : id ∈ l.map get_id) :
    ∃ x, l.find? (fun y => decide (get_id y = id)) = some x ∧ get_id x = id ∧ x ∈ l := by
  obtain ⟨y, hy, hid⟩ := List.mem_map.mp h
  have hs : (l.find? (fun y => decide (get_id y = id))).isSome = true :=
    List.find?_isSome.mpr ⟨y, hy, by simp [hid]⟩
  obtain ⟨x, hx⟩ := Option.isSome_iff_exists.mp hs
  refine ⟨x, hx, ?_, List.mem_of_find?_eq_some hx⟩
  have := List.find?_some hx
  simpa using this

theorem find_self_of_nodup {α : Type} (get_id : α → ElementID) (l : List α)
    (hn : (l.map get_id).Nodup) (x : α) (hx : x ∈ l) :
    l.find? (fun y => decide (get_id y = get_id x)) = some x := by
  obtain ⟨y, hy, hid, hmem⟩ := find_of_mem_ids get_id l (get_id x) (List.mem_map_of_mem _ hx)
  have : y = x := List.inj_on_of_nodup_map hn hmem hx hid
  rw [hy, this]

theorem sort_ids_perm (ids : List ElementID) : List.Perm (sort_ids ids) ids :=
  List.perm_insertionSort _ ids

theorem sort_ids_sorted (ids : List ElementID) : (sort_ids ids).Sorted (fun a b => a ≤ b) :=
  List.sorted_insertionSort _ ids

theorem sort_ids_strict (ids : List ElementID) (hn : ids.Nodup) :
    (sort_ids ids).Sorted (fun a b => a < b) := by
  have hs := sort_ids_sorted ids
  have hn' : (sort_ids ids).Nodup := (sort_ids_perm ids).nodup_iff.mpr hn
  exact (List.Pairwise.and hs hn').imp (fun h => Nat.lt_of_le_of_ne h.1 h.2)

theorem sort_ids_congr (a b : List ElementID) (h : List.Perm a b) : sort_ids a = sort_ids b :=
  List.eq_of_perm_of_sorted (((sort_ids_perm a).trans h).trans (sort_ids_perm b).symm)
    (sort_ids_sorted a) (sort_ids_sorted b)

theorem nodes_by_id_ids {α : Type} (get_id : α → ElementID) (l : List α) :
    (nodes_by_id get_id l).map get_id = sort_ids (l.map get_id) := by
  unfold nodes_by_id
  have hsub : ∀ id ∈ sort_ids (l.map get_id), id ∈ l.map get_id :=
    fun id hid => (sort_ids_perm _).subset hid
  generalize sort_ids (l.map get_id) = ids at hsub
  induction ids with
  | nil => simp
  | cons id rest ih =>
    obtain ⟨x, hx, hid, _⟩ := find_of_mem_ids get_id l id (hsub id (List.mem_cons_self _ _))
    rw [List.filterMap_cons, hx]
    simp only [List.map_cons, hid]
    rw [ih (fun i hi => hsub i (List.mem_cons_of_mem _ hi))]

theorem filterMap_find_self {α : Type} (get_id : α → ElementID) (l : List α)
    (hn : (l.map get_id).Nodup) :
    ∀ (m : List α), (∀ x ∈ m, x ∈ l) →
      (m.map get_id).filterMap (fun id => l.find? (fun y => decide (get_id y = id))) = m := by
  intro m
  induction m with
  | nil => intro _; simp
  | cons a rest ih =>
    intro h
    rw [List.map_cons, List.filterMap_cons,
      find_self_of_nodup get_id l hn a (h a (List.mem_cons_self _ _))]
    simp only
    rw [ih (fun x hx => h x (List.mem_cons_of_mem _ hx))]

theorem nodes_by_id_perm {α : Type} (get_id : α → ElementID) (l : List α)
    (hn : (l.map get_id).Nodup) : List.Perm (nodes_by_id get_id l) l := by
  unfold nodes_by_id
  have h1 := List.Perm.filterMap (fun id => l.find? (fun y => decide (get_id y = id)))
    (sort_ids_perm (l.map get_id))
  rw [filterMap_find_self get_id l hn l (fun _ hx => hx)] at h1
  exact h1

theorem find_congr {α : Type} (get_id : α → ElementID) (l1 l2 : List α) (hp : List.Perm l1 l2)
    (hn : (l1.map get_id).Nodup) (id : ElementID) :
    l1.find? (fun y => decide (get_id y = id)) = l2.find? (fun y => decide (get_id y = id)) := by
  have hn2 : (l2.map get_id).Nodup := (hp.map get_id).nodup_iff.mp hn
  by_cases hid : id ∈ l1.map get_id
  · obtain ⟨x, hx, hxid, hmem⟩ := find_of_mem_ids get_id l1 id hid
    have h2 := find_self_of_nodup get_id l2 hn2 x (hp.subset hmem)
    rw [hxid] at h2
    rw [hx, h2]
  · have hid2 : id ∉ l2.map get_id := fun h => hid ((hp.map get_id).symm.subset h)
    have e1 : l1.find? (fun y => decide (get_id y = id)) = none := by
      rw [List.find?_eq_none]
      intro x hx hc
      exact hid (List.mem_map.mpr ⟨x, hx, by simpa using hc⟩)
    have e2 : l2.find? (fun y => decide (get_id y = id)) = none := by
      rw [List.find?_eq_none]
      intro x hx hc
      exact hid2 (List.mem_map.mpr ⟨x, hx, by simpa using hc⟩)
    rw [e1, e2]

theorem nodes_by_id_congr {α : Type} (get_id : α → ElementID) (l1 l2 : List α)
    (hp : List.Perm l1 l2)
    (hn : (l1.map get_id).Nodup) : nodes_by_id get_id l1 = nodes_by_id get_id l2 := by
  unfold nodes_by_id
  rw [sort_ids_congr _ _ (hp.map get_id)]
  congr 1
  funext id
  exact find_congr get_id l1 l2 hp hn id

theorem write_storehouse_ids_eq (ids : List ElementID) (os : String) :
    ids.foldl (fun os id => os ++ "\nSTOREHOUSE #" ++ toString id ++ "\n") os =
      os ++ concat_all (ids.map (fun id => "\nSTOREHOUSE #" ++ toString id ++ "\n")) := by
  induction ids generalizing os with
  | nil => simp [concat_all]
  | cons id rest ih =>
    rw [List.foldl_cons, ih]
    simp [concat_all, String.append_assoc]

theorem for_each_node_eq {α : Type} (get_id : α → ElementID) (l : List α)
    (body : String → ElementID → α → String) (text : α → String)
    (hb : ∀ os x, body os (get_id x) x = os ++ text x) (os : String) :
    for_each_id (fun id => l.find? (fun y => decide (get_id y = id))) body
        (sort_ids (l.map get_id)) os =
      some (os ++ concat_all ((nodes_by_id get_id l).map text)) := by
  unfold nodes_by_id
  apply for_each_id_eq
  intro id hid
  obtain ⟨x, hx, hxid, _⟩ := find_of_mem_ids get_id l id ((sort_ids_perm _).subset hid)
  refine ⟨x, hx, fun os => ?_⟩
  rw [← hxid]
  exact hb os x

theorem structure_report_eq (f : Factory) (os : String) :
    generate_structure_report f os =
      some (os ++ structure_report_text (nodes_by_id Ramp.get_id f.ramps)
        (nodes_by_id Worker.get_id f.workers) (nodes_by_id Storehouse.get_id f.storehouses)) := by
  have hr := for_each_node_eq Ramp.get_id f.ramps write_ramp ramp_text
    (fun os x => write_ramp_eq os _ x)
  have hw := for_each_node_eq Worker.get_id f.workers write_worker worker_text
    (fun os x => write_worker_eq os _ x)
  have hs : (nodes_by_id Storehouse.get_id f.storehouses).map storehouse_text =
      (sort_ids (f.storehouses.map Storehouse.get_id)).map
        (fun id => "\nSTOREHOUSE #" ++ toString id ++ "\n") := by
    rw [← nodes_by_id_ids, List.map_map]
    rfl
  unfold generate_structure_report Factory.find_ramp_by_id Factory.find_worker_by_id
  simp only [hr, hw, write_storehouse_ids_eq, Option.bind_eq_bind, Option.some_bind,
    Option.pure_def]
  rw [← hs]
  simp only [structure_report_text, String.append_assoc]

theorem turn_report_eq (f : Factory) (os : String) (t : Time) :
    generate_simulation_turn_report f os t =
      some (os ++ turn_report_text t (nodes_by_id Worker.get_id f.workers)
        (nodes_by_id Storehouse.get_id f.storehouses)) := by
  have hw := for_each_node_eq Worker.get_id f.workers (write_worker_state t)
    (worker_state_text t) (fun os x => write_worker_state_eq t os _ x)
  have hs := for_each_node_eq Storehouse.get_id f.storehouses write_storehouse_state
    storehouse_state_text (fun os x => write_storehouse_state_eq os x)
  unfold generate_simulation_turn_report Factory.find_worker_by_id Factory.find_storehouse_by_id
  simp only [hw, hs, Option.bind_eq_bind, Option.some_bind, Option.pure_def, turn_report_text,
    String.append_assoc]

theorem storehouse_lt_worker : "storehouse" < "worker" := by
  rw [String.lt_iff_toList_lt]
  decide

theorem not_receiver_less_iff (a b : String × ElementID) :
    ¬ receiver_less b a ↔ receiver_le a b := by
  unfold receiver_less receiver_le
  by_cases h : b.1 = a.1
  · simp only [ne_eq, h, not_true_eq_false, if_false, lt_self_iff_false, false_or, true_and]
    exact Nat.not_lt
  · have h' : ¬ a.1 = b.1 := fun e => h e.symm
    simp only [ne_eq, h, not_false_eq_true, if_true, h', false_and, or_false]
    constructor
    · intro hn
      rcases lt_trichotomy a.1 b.1 with hl | he | hg
      · exact hl
      · exact absurd he h'
      · exact absurd hg hn
    · intro hl
      exact lt_asymm hl

theorem receiver_le_total (a b : String × ElementID) : receiver_le a b ∨ receiver_le b a := by
  unfold receiver_le
  rcases lt_trichotomy a.1 b.1 with hl | he | hg
  · exact Or.inl (Or.inl hl)
  · rcases Nat.le_total a.2 b.2 with h | h
    · exact Or.inl (Or.inr ⟨he, h⟩)
    · exact Or.inr (Or.inr ⟨he.symm, h⟩)
  · exact Or.inr (Or.inl hg)

theorem receiver_le_trans (a b c : String × ElementID) (hab : receiver_le a b)
    (hbc : receiver_le b c) : receiver_le a c := by
  unfold receiver_le at *
  rcases hab with h1 | ⟨e1, l1⟩
  · rcases hbc with h2 | ⟨e2, _⟩
    · exact Or.inl (lt_trans h1 h2)
    · exact Or.inl (e2 ▸ h1)
  · rcases hbc with h2 | ⟨e2, l2⟩
    · exact Or.inl (e1 ▸ h2)
    · exact Or.inr ⟨e1.trans e2, Nat.le_trans l1 l2⟩

theorem receiver_le_antisymm (a b : String × ElementID) (hab : receiver_le a b)
    (hba : receiver_le b a) : a = b := by
  unfold receiver_le at *
  rcases hab with h1 | ⟨e1, l1⟩
  · rcases hba with h2 | ⟨e2, _⟩
    · exact absurd h2 (lt_asymm h1)
    · rw [e2] at h1
      exact absurd h1 (lt_irrefl _)
  · rcases hba with h2 | ⟨_, l2⟩
    · rw [e1] at h2
      exact absurd h2 (lt_irrefl _)
    · exact Prod.ext e1 (Nat.le_antisymm l1 l2)

instance receiver_order_total :
    IsTotal (String × ElementID) (fun a b => ¬ receiver_less b a) :=
  ⟨fun a b => by
    rw [not_receiver_less_iff, not_receiver_less_iff]
    exact receiver_le_total a b⟩

instance receiver_order_trans :
    IsTrans (String × ElementID) (fun a b => ¬ receiver_less b a) :=
  ⟨fun a b c => by
    rw [not_receiver_less_iff, not_receiver_less_iff, not_receiver_less_iff]
    exact receiver_le_trans a b c⟩

instance receiver_order_antisymm :
    IsAntisymm (String × ElementID) (fun a b => ¬ receiver_less b a) :=
  ⟨fun a b => by
    rw [not_receiver_less_iff, not_receiver_less_iff]
    exact receiver_le_antisymm a b⟩

theorem sort_receivers_perm (l : List (String × ElementID)) : List.Perm (sort_receivers l) l :=
  List.perm_insertionSort _ l

theorem sort_receivers_congr (a b : List (String × ElementID)) (h : List.Perm a b) :
    sort_receivers a = sort_receivers b :=
  List.eq_of_perm_of_sorted
    (((sort_receivers_perm a).trans h).trans (sort_receivers_perm b).symm)
    (List.sorted_insertionSort (fun a b => ¬ receiver_less b a) a)
    (List.sorted_insertionSort (fun a b => ¬ receiver_less b a) b)

theorem block_split (os hdr x rest : String) (l : List String) (h : x ∈ l) :
    ∃ pre post, os ++ (hdr ++ concat_all l ++ rest) = pre ++ x ++ post := by
  obtain ⟨a, b, hab⟩ := concat_all_split x l h
  exact ⟨os ++ hdr ++ a, b ++ rest, by rw [hab]; simp only [String.append_assoc]⟩

theorem turn_report_has_worker (f : Factory) (os : String) (t : Time) (w : Worker)
    (hu : (f.workers.map Worker.get_id).Nodup) (hw : w ∈ f.workers) :
    ∃ pre post,
      generate_simulation_turn_report f os t = some (pre ++ worker_state_text t w ++ post) := by
  have hm : worker_state_text t w ∈
      (nodes_by_id Worker.get_id f.workers).map (worker_state_text t) :=
    List.mem_map_of_mem _ ((nodes_by_id_perm Worker.get_id f.workers hu).symm.subset hw)
  obtain ⟨pre, post, h⟩ := block_split os ("=== [ Turn: " ++ toString t ++ " ] ===\n" ++
    "\n== WORKERS ==\n") (worker_state_text t w)
    ("\n\n== STOREHOUSES ==\n" ++
      concat_all ((nodes_by_id Storehouse.get_id f.storehouses).map storehouse_state_text) ++ "\n")
    _ hm
  refine ⟨pre, post, ?_⟩
  rw [turn_report_eq, ← h]
  simp only [turn_report_text, String.append_assoc]

theorem iter_nil_iff (q : PackageQueue) : q.iter = [] ↔ q.size = 0 := by
  cases q with
  | mk qt items => cases qt <;> simp [PackageQueue.iter, PackageQueue.size]

theorem package_ids_text_cons (p : Package) (rest : List Package) :
    ∃ tail, package_ids_text (p :: rest) = "#" ++ tail := by
  cases rest with
  | nil => exact ⟨toString p.get_id ++ "", by simp [package_ids_text, concat_all, String.append_assoc]⟩
  | cons q rest =>
    exact ⟨toString p.get_id ++ concat_all (", " ::
      List.intersperse ", " ((q :: rest).map (fun p => "#" ++ toString p.get_id))), by
      simp [package_ids_text, concat_all, String.append_assoc]⟩

theorem queue_text_empty_iff (l : List Package) :
    queue_text l = "  Queue: (empty)\n" ↔ l = [] := by
  constructor
  · intro h
    cases l with
    | nil => rfl
    | cons p rest =>
      exfalso
      obtain ⟨tail, ht⟩ := package_ids_text_cons p rest
      have hd := congrArg String.data h
      simp only [queue_text, ht, String.data_append, reduceCtorEq, if_false] at hd
      revert hd
      generalize tail.data = x
      intro hd
      simp at hd
  · intro h
    rw [h]
    rfl

/-! ### Lemmas on the full-cycle factory -/

theorem full_cycle_consistent :
    (full_cycle none [] none none none []).is_consistent = true := by
  decide

theorem choose_single (rcv : IPackageReceiver) (g : ℚ) (hg : g < 1) :
    ReceiverPreferences.choose_receiver { preferences := [(rcv, 1)] } g = some rcv := by
  simp [ReceiverPreferences.choose_receiver, ReceiverPreferences.choose_walk, hg]

theorem full_cycle_deliver (rb : Option Package) (q : List Package) (pb : Option Package)
    (st : Option Time) (sb : Option Package) (stock : List Package) (n k : Nat) (t : Time) :
    Process.do_deliveries
        { factory := full_cycle rb q pb st sb stock, next_package_id := n, draws := k } t =
      { factory := full_cycle (some { id := n }) q pb st sb stock, next_package_id := n + 1,
        draws := k } := by
  simp [Process.do_deliveries, full_cycle, sort_ids, Process.deliver_at,
    Factory.find_ramp_by_id, Ramp.deliver_goods, Factory.update_ramp, Ramp.get_id, Nat.mod_one]

theorem full_cycle_pass (gen : Nat → ℚ) (hg : ∀ i, gen i < 1) (p : Package)
    (q : List Package) (pb : Option Package) (st : Option Time) (sb : Option Package)
    (stock : List Package) (n k : Nat) :
    Process.do_package_passing gen
        { factory := full_cycle (some p) q pb st sb stock, next_package_id := n, draws := k } =
      { factory := full_cycle none (q ++ [p]) pb st none (stock ++ sb.toList),
        next_package_id := n, draws := k + 1 + (if sb.isSome then 1 else 0) } := by
  cases sb with
  | none =>
    simp [Process.do_package_passing, full_cycle, sort_ids, Process.send_from_ramp,
      Process.send_from_worker, Factory.find_ramp_by_id, Factory.find_worker_by_id,
      Process.pass_on, PackageSender.send_package, PackageSender.draws, choose_single, hg,
      Factory.update_ramp, Factory.update_worker, Factory.receive_package, Ramp.get_id,
      Worker.get_id, Worker.receive_package, PackageQueue.push]
  | some b =>
    simp [Process.do_package_passing, full_cycle, sort_ids, Process.send_from_ramp,
      Process.send_from_worker, Factory.find_ramp_by_id, Factory.find_worker_by_id,
      Process.pass_on, PackageSender.send_package, PackageSender.draws, choose_single, hg,
      Factory.update_ramp, Factory.update_worker, Factory.receive_package, Ramp.get_id,
      Worker.get_id, Worker.receive_package, PackageQueue.push, Storehouse.receive_package]

theorem full_cycle_work (rb : Option Package) (p : Package) (q : List Package)
    (st : Option Time) (sb : Option Package) (stock : List Package) (n k : Nat) (t : Time) :
    Process.do_work
        { factory := full_cycle rb (p :: q) none st sb stock, next_package_id := n,
          draws := k } t =
      { factory := full_cycle rb q none none (some p) stock, next_package_id := n,
        draws := k } := by
  simp [Process.do_work, full_cycle, sort_ids, Process.work_at, Factory.find_worker_by_id,
    Worker.do_work, Worker.take_up, Worker.finish, PackageQueue.pop, Factory.update_worker,
    Worker.get_id]

theorem full_cycle_two_turns (gen : Nat → ℚ) (hg : ∀ i, gen i < 1) (n k : Nat) :
    simulate_loop (factory_ops gen) no_observer 2 1
        { factory := full_cycle none [] none none none [], next_package_id := n, draws := k } =
      { factory := full_cycle none [] none none (some { id := n + 1 }) [{ id := n }],
        next_package_id := n + 2, draws := k + 3 } := by
  rw [simulate_loop_step _ _ _ _ _ (by decide)]
  simp only [factory_ops, no_observer]
  rw [full_cycle_deliver, full_cycle_pass gen hg, List.nil_append, full_cycle_work,
    simulate_loop_step _ _ _ _ _ (by decide)]
  simp only [factory_ops, no_observer]
  rw [full_cycle_deliver, full_cycle_pass gen hg, List.nil_append, full_cycle_work,
    simulate_loop_done _ _ _ _ _ (by decide)]
  simp

/-! ### The scheduler: claims C1 and C2 -/

/-- C1: on a factory for which `is_consistent()` is false, `simulate` throws for every
horizon `d` and every observer, before any phase runs: the log of calls stays empty
(no `do_deliveries`, `do_package_passing`, `do_work`, no observer invocation) and the
factory is the one passed in. -/
theorem C1_simulate_inconsistent_throws {F : Type} (ops : FactoryOps F) (f : F)
    (d : TimeOffset) (rf : F → Time → F) (h : ops.is_consistent f = false) :
    (simulate ops f d rf).outcome = Outcome.threw "Factory is inconsistent" ∧
    (simulate ops f d rf).factory = f ∧
    (simulate ops.logged (f, []) d (logged_observer rf)).outcome =
      Outcome.threw "Factory is inconsistent" ∧
    (simulate ops.logged (f, []) d (logged_observer rf)).factory = (f, []) := by
  simp [simulate, FactoryOps.logged, h]

/-- C2: on a consistent factory `simulate` returns normally for every horizon `d`, and
the calls it makes are exactly `do_deliveries(t)`, `do_package_passing()`, `do_work(t)`,
observer(t) for `t = 1, ..., d` in increasing order; the observer is invoked exactly
`d` times (never for `d = 0`), and the factory left behind is the one the unlogged run
computes. -/
theorem C2_simulate_schedule {F : Type} (ops : FactoryOps F) (f : F)
    (d : TimeOffset) (rf : F → Time → F) (h : ops.is_consistent f = true) :
    (simulate ops f d rf).outcome = Outcome.returned ∧
    (simulate ops.logged (f, []) d (logged_observer rf)).outcome = Outcome.returned ∧
    (simulate ops.logged (f, []) d (logged_observer rf)).factory.2 = schedule d ∧
    (simulate ops.logged (f, []) d (logged_observer rf)).factory.1 =
      (simulate ops f d rf).factory ∧
    ((schedule d).filter (fun c => c matches Call.observer _)).length = d := by
  refine ⟨by simp [simulate, h], by simp [simulate, FactoryOps.logged, h], ?_, ?_, ?_⟩
  · have hl := logged_loop ops rf d d 1 f [] (Nat.add_comm 1 d)
    simp only [simulate, FactoryOps.logged, h] at hl ⊢
    simp [FactoryOps.logged, hl, schedule_eq_calls_from]
  · have hl := logged_loop ops rf d d 1 f [] (Nat.add_comm 1 d)
    simp only [simulate, FactoryOps.logged, h] at hl ⊢
    simp [FactoryOps.logged, hl]
  · unfold schedule
    induction d with
    | zero => simp
    | succ n ih =>
      rw [List.range_succ, List.flatMap_append, List.filter_append, List.length_append, ih]
      simp [turn_calls]

/-- C1 at a factory whose only worker has zero receivers, horizon 5. -/
theorem C1_simulate_inconsistent_throws_witness :
    (factory_ops (fun _ => 0)).is_consistent demo_inconsistent = false ∧
    (simulate (factory_ops (fun _ => 0)) demo_inconsistent 5 no_observer).outcome =
      Outcome.threw "Factory is inconsistent" ∧
    (simulate (factory_ops (fun _ => 0)).logged (demo_inconsistent, []) 5
      (logged_observer no_observer)).factory = (demo_inconsistent, []) :=
  ⟨by decide,
    (C1_simulate_inconsistent_throws (factory_ops (fun _ => 0)) demo_inconsistent 5
      no_observer (by decide)).1,
    (C1_simulate_inconsistent_throws (factory_ops (fun _ => 0)) demo_inconsistent 5
      no_observer (by decide)).2.2.2⟩

/-- C2 at the full-cycle factory, horizon 2: the eight calls of two turns. -/
theorem C2_simulate_schedule_witness :
    (factory_ops (fun _ => 0)).is_consistent (full_cycle_start 1 0) = true ∧
    (simulate (factory_ops (fun _ => 0)).logged (full_cycle_start 1 0, []) 2
      (logged_observer no_observer)).factory.2 =
      [Call.do_deliveries 1, Call.do_package_passing, Call.do_work 1, Call.observer 1,
       Call.do_deliveries 2, Call.do_package_passing, Call.do_work 2, Call.observer 2] :=
  ⟨by decide,
    (C2_simulate_schedule (factory_ops (fun _ => 0)) (full_cycle_start 1 0) 2 no_observer
      (by decide)).2.2.1⟩

/-! ### Queue discipline: claim C5 -/

/-- C5: packages pushed in order onto an initially empty PackageQueue and then popped
until it is empty come out in the pushed order when the queue is FIFO and in the
reverse of the pushed order when it is LIFO; the queue ends up holding all of them
before the pops. -/
theorem C5_pop_order (ps : List Package) :
    PackageQueue.drain
        (PackageQueue.push_all (PackageQueue.empty_queue PackageQueueType.FIFO) ps) = ps ∧
    PackageQueue.drain
        (PackageQueue.push_all (PackageQueue.empty_queue PackageQueueType.LIFO) ps) =
      ps.reverse ∧
    ∀ qt, (PackageQueue.push_all (PackageQueue.empty_queue qt) ps).size = ps.length := by
  have hF := PackageQueue.push_all_items (PackageQueue.empty_queue PackageQueueType.FIFO) ps
  have hL := PackageQueue.push_all_items (PackageQueue.empty_queue PackageQueueType.LIFO) ps
  refine ⟨?_, ?_, ?_⟩
  · have e : PackageQueue.push_all (PackageQueue.empty_queue PackageQueueType.FIFO) ps =
        { queue_type := PackageQueueType.FIFO, items := ps } := by
      cases hq : PackageQueue.push_all (PackageQueue.empty_queue PackageQueueType.FIFO) ps
      rw [hq] at hF
      simp only [PackageQueue.empty_queue, List.nil_append] at hF
      rw [hF.1, hF.2]
    rw [e, PackageQueue.drain_fifo]
  · have e : PackageQueue.push_all (PackageQueue.empty_queue PackageQueueType.LIFO) ps =
        { queue_type := PackageQueueType.LIFO, items := ps } := by
      cases hq : PackageQueue.push_all (PackageQueue.empty_queue PackageQueueType.LIFO) ps
      rw [hq] at hL
      simp only [PackageQueue.empty_queue, List.nil_append] at hL
      rw [hL.1, hL.2]
    rw [e, PackageQueue.drain_lifo]
  · intro qt
    have h := PackageQueue.push_all_items (PackageQueue.empty_queue qt) ps
    rw [PackageQueue.size, h.1]
    simp [PackageQueue.empty_queue]

/-! ### Ramp cadence: claim C4 -/

/-- C4: for a ramp with delivery interval `k ≥ 1` and an empty sending buffer, and a turn
`t ≥ 1`, after `deliver_goods(t)` the sending buffer holds a package, and then the newly
created one, if and only if `(t - 1) mod k = 0`; when `(t - 1) mod k ≠ 0` the ramp is
unchanged, no package was created, and a following `send_package()` transfers nothing
whatever the generator yields. -/
theorem C4_ramp_cadence (r : Ramp) (t : Time) (next_id : ElementID)
    (hk : 1 ≤ r.delivery_interval) (hb : r.buffer = none) (ht : 1 ≤ t) :
    (((r.deliver_goods t next_id).1.buffer).isSome = true ↔
      ((t : Int) - 1) % (r.delivery_interval : Int) = 0) ∧
    (((t : Int) - 1) % (r.delivery_interval : Int) = 0 →
      (r.deliver_goods t next_id).1.buffer = some { id := next_id } ∧
      (r.deliver_goods t next_id).2 = next_id + 1) ∧
    (((t : Int) - 1) % (r.delivery_interval : Int) ≠ 0 →
      r.deliver_goods t next_id = (r, next_id) ∧
      ∀ g : ℚ, ((r.deliver_goods t next_id).1.toPackageSender.send_package g) =
        (r.toPackageSender, none)) := by
  have hc : ((t : Int) - 1) % (r.delivery_interval : Int) = 0 ↔
      (t - 1) % r.delivery_interval = 0 := by
    have e : ((t : Int) - 1) = (((t - 1 : Nat)) : Int) := by
      unfold Time at *
      omega
    rw [e, ← Int.natCast_mod]
    exact_mod_cast Iff.rfl
  simp only [ne_eq, hc]
  by_cases h : (t - 1) % r.delivery_interval = 0
  · simp only [Ramp.deliver_goods, h, if_true, Option.isSome_some, true_iff, ne_eq,
      not_true_eq_false, false_implies, and_true, implies_true, true_and]
  · simp only [Ramp.deliver_goods, h, if_false, hb, Option.isSome_none, ne_eq,
      not_false_eq_true, true_implies, false_implies, true_and, PackageSender.send_package,
      implies_true, and_true]
    simp

/-- C4 at the ramp of the test `RampTest.DeliveryInCorrectRound` (interval 2, one
storehouse receiver) with the package counter at 7: a delivery at turn 1, none at
turn 2. -/
theorem C4_ramp_cadence_witness :
    (1 ≤ test_ramp.delivery_interval ∧ test_ramp.buffer = none) ∧
    (test_ramp.deliver_goods 1 7).1.buffer = some { id := 7 } ∧
    test_ramp.deliver_goods 2 7 = (test_ramp, 7) :=
  ⟨⟨by decide, rfl⟩,
    ((C4_ramp_cadence test_ramp 1 7 (by decide) rfl (by decide)).2.1 (by decide)).1,
    ((C4_ramp_cadence test_ramp 2 7 (by decide) rfl (by decide)).2.2 (by decide)).1⟩

/-! ### Reports: claims C6 to C9 -/

/-- C6: in the report of turn `t`, for a worker of the factory whose processing buffer
holds package `p` taken up at turn `s ≤ t`, the worker's `PBuffer` line is
`#<id of p> (pt = <t - s + 1>)`, the value being the exact integer `t - s + 1`; for a
worker whose processing buffer is empty the line is `(empty)` and carries no `pt`. In
both cases the line stands right after the worker's header and right before its
`Queue` line. -/
theorem C6_pbuffer_line (f : Factory) (os : String) (t : Time) (w : Worker)
    (hu : f.unique_ids) (hw : w ∈ f.workers) :
    (∀ (p : Package) (s : Time), w.processing_buffer = some p →
      w.processing_start_time = some s → s ≤ t →
      ∃ pre post, generate_simulation_turn_report f os t =
        some (pre ++ ("\nWORKER #" ++ toString w.id ++ "\n" ++
          "  PBuffer: #" ++ toString p.id ++ " (pt = " ++
            toString ((t : Int) - (s : Int) + 1) ++ ")\n" ++
          queue_text w.queue_iter ++ sbuffer_text w) ++ post)) ∧
    (w.processing_buffer = none →
      ∃ pre post, generate_simulation_turn_report f os t =
        some (pre ++ ("\nWORKER #" ++ toString w.id ++ "\n" ++
          "  PBuffer: (empty)\n" ++
          queue_text w.queue_iter ++ sbuffer_text w) ++ post)) := by
  obtain ⟨pre, post, h⟩ := turn_report_has_worker f os t w hu.2.1 hw
  constructor
  · intro p s hp hs hst
    refine ⟨pre, post, ?_⟩
    rw [h]
    simp only [worker_state_text, pbuffer_text, Worker.get_processing_buffer, hp,
      Worker.get_product_processing_start_time, hs, Option.getD_some, Worker.get_id,
      Package.get_id, String.append_assoc]
  · intro hp
    refine ⟨pre, post, ?_⟩
    rw [h]
    simp only [worker_state_text, pbuffer_text, Worker.get_processing_buffer, hp,
      Worker.get_id, String.append_assoc]

/-- C7: for a factory with ids unique within each node kind, the structure report is the
text that visits ramps, workers and storehouses, and the turn report the text that
visits workers and storehouses, each kind in strictly ascending id order and each node
once; a factory holding the same nodes in another storage order yields the same two
texts. -/
theorem C7_reports_by_ascending_id (f1 f2 : Factory) (os : String) (t : Time)
    (hu : f1.unique_ids) (hr : List.Perm f1.ramps f2.ramps)
    (hw : List.Perm f1.workers f2.workers) (hs : List.Perm f1.storehouses f2.storehouses) :
    (∃ rs ws ss, List.Perm rs f1.ramps ∧ List.Perm ws f1.workers ∧
      List.Perm ss f1.storehouses ∧
      (rs.map Ramp.get_id).Sorted (fun a b => a < b) ∧
      (ws.map Worker.get_id).Sorted (fun a b => a < b) ∧
      (ss.map Storehouse.get_id).Sorted (fun a b => a < b) ∧
      generate_structure_report f1 os = some (os ++ structure_report_text rs ws ss) ∧
      generate_simulation_turn_report f1 os t = some (os ++ turn_report_text t ws ss)) ∧
    generate_structure_report f1 os = generate_structure_report f2 os ∧
    generate_simulation_turn_report f1 os t = generate_simulation_turn_report f2 os t := by
  obtain ⟨ur, uw, us⟩ := hu
  refine ⟨⟨nodes_by_id Ramp.get_id f1.ramps, nodes_by_id Worker.get_id f1.workers,
    nodes_by_id Storehouse.get_id f1.storehouses, nodes_by_id_perm _ _ ur,
    nodes_by_id_perm _ _ uw, nodes_by_id_perm _ _ us, ?_, ?_, ?_,
    structure_report_eq f1 os, turn_report_eq f1 os t⟩, ?_, ?_⟩
  · rw [nodes_by_id_ids]
    exact sort_ids_strict _ ur
  · rw [nodes_by_id_ids]
    exact sort_ids_strict _ uw
  · rw [nodes_by_id_ids]
    exact sort_ids_strict _ us
  · rw [structure_report_eq, structure_report_eq, nodes_by_id_congr _ _ _ hr ur,
      nodes_by_id_congr _ _ _ hw uw, nodes_by_id_congr _ _ _ hs us]
  · rw [turn_report_eq, turn_report_eq, nodes_by_id_congr _ _ _ hw uw,
      nodes_by_id_congr _ _ _ hs us]

/-- C9: in the report of a turn, the `Queue` line of every worker of the factory, FIFO or
LIFO, is `(empty)` exactly when the input queue holds nothing, and otherwise lists the
ids of the queued packages in the order successive `pop()` calls return them, each
after a `#`, separated by `", "` with nothing after the last. -/
theorem C9_queue_line (f : Factory) (os : String) (t : Time) (w : Worker)
    (hu : f.unique_ids) (hw : w ∈ f.workers) :
    (∃ pre post, generate_simulation_turn_report f os t =
      some (pre ++ ("\nWORKER #" ++ toString w.id ++ "\n" ++ pbuffer_text w t ++
        "  Queue: " ++
          (if w.queue.size = 0 then "(empty)"
           else concat_all (List.intersperse ", "
            (w.queue.drain.map (fun p => "#" ++ toString p.id)))) ++ "\n" ++
        sbuffer_text w) ++ post)) ∧
    (queue_text w.queue_iter = "  Queue: (empty)\n" ↔ w.queue.size = 0) ∧
    (∀ p q, w.queue.pop = some (p, q) → w.queue.drain = p :: q.drain) := by
  refine ⟨?_, ?_, ?_⟩
  · obtain ⟨pre, post, h⟩ := turn_report_has_worker f os t w hu.2.1 hw
    refine ⟨pre, post, ?_⟩
    rw [h]
    have hi : w.queue_iter = w.queue.drain := PackageQueue.iter_eq_drain w.queue
    have hz : (w.queue.drain = []) ↔ w.queue.size = 0 := by
      rw [← PackageQueue.iter_eq_drain]
      exact iter_nil_iff w.queue
    by_cases hq : w.queue.size = 0
    · simp only [worker_state_text, queue_text, hi, hz.mpr hq, hq, if_true, Worker.get_id,
        String.append_assoc]
    · have hne : ¬ w.queue.drain = [] := fun e => hq (hz.mp e)
      simp only [worker_state_text, queue_text, hi, hne, hq, if_false, Worker.get_id,
        package_ids_text, Package.get_id, String.append_assoc]
  · rw [queue_text_empty_iff]
    exact iter_nil_iff w.queue
  · intro p q h
    exact PackageQueue.drain_of_pop_some _ _ _ h


set_option maxRecDepth 100000 in
/-- The turn report of the example factory at turn 3, evaluated. -/
theorem demo_turn_report :
    generate_simulation_turn_report demo_factory "" 3 = some
      ("=== [ Turn: 3 ] ===\n\n== WORKERS ==\n" ++
       "\nWORKER #1\n  PBuffer: (empty)\n  Queue: (empty)\n  SBuffer: #3\n" ++
       "\nWORKER #2\n  PBuffer: #7 (pt = 2)\n  Queue: #5, #4\n  SBuffer: (empty)\n" ++
       "\n\n== STOREHOUSES ==\n" ++
       "\nSTOREHOUSE #1\n  Stock: #1, #2\n" ++ "\n") := by
  decide

/-- The receivers of the example ramp as the structure report lists them. -/
theorem demo_sorted_receivers :
    sorted_receivers demo_ramp.receiver_preferences =
      [("storehouse", 1), ("worker", 1), ("worker", 2)] := by
  have h1 : ¬ ("worker" < "storehouse") := lt_asymm storehouse_lt_worker
  simp [sorted_receivers, sort_receivers, demo_ramp, ReceiverPreferences.get_preferences,
    receiver_key, type_str, IPackageReceiver.get_receiver_type, IPackageReceiver.get_id,
    List.insertionSort, List.orderedInsert, receiver_less, h1]
  decide

/-- C6 at the example factory, turn 3: worker 2 processes package 7 since turn 2, worker 1
is idle. -/
theorem C6_pbuffer_line_witness :
    (∃ pre post, generate_simulation_turn_report demo_factory "" 3 =
      some (pre ++ "\nWORKER #2\n  PBuffer: #7 (pt = 2)\n  Queue: #5, #4\n  SBuffer: (empty)\n"
        ++ post)) ∧
    (∃ pre post, generate_simulation_turn_report demo_factory "" 3 =
      some (pre ++ "\nWORKER #1\n  PBuffer: (empty)\n  Queue: (empty)\n  SBuffer: #3\n"
        ++ post)) :=
  ⟨(C6_pbuffer_line demo_factory "" 3 demo_worker_busy (by decide) (List.Mem.head _)).1
      { id := 7 } 2 rfl rfl (by decide),
   (C6_pbuffer_line demo_factory "" 3 demo_worker_idle (by decide)
      (List.Mem.tail _ (List.Mem.head _))).2 rfl⟩

/-- C7 at the example factory and the same factory with its two workers stored in the
other order. -/
theorem C7_reports_by_ascending_id_witness :
    generate_structure_report demo_factory "" =
      generate_structure_report demo_factory_swapped "" ∧
    generate_simulation_turn_report demo_factory "" 3 =
      generate_simulation_turn_report demo_factory_swapped "" 3 :=
  (C7_reports_by_ascending_id demo_factory demo_factory_swapped "" 3 (by decide)
    (List.Perm.refl _) (List.Perm.swap _ _ _) (List.Perm.refl _)).2

/-- C9 at the example factory, turn 3: the LIFO queue of worker 2, filled with 4 then 5. -/
theorem C9_queue_line_witness :
    ∃ pre post, generate_simulation_turn_report demo_factory "" 3 =
      some (pre ++ ("\nWORKER #" ++ toString demo_worker_busy.id ++ "\n" ++
        pbuffer_text demo_worker_busy 3 ++ "  Queue: " ++
          (if demo_worker_busy.queue.size = 0 then "(empty)"
           else concat_all (List.intersperse ", "
            (demo_worker_busy.queue.drain.map (fun p => "#" ++ toString p.id)))) ++ "\n" ++
        sbuffer_text demo_worker_busy) ++ post) :=
  (C9_queue_line demo_factory "" 3 demo_worker_busy (by decide) (List.Mem.head _)).1


/-! ### The full cycle: claim C3 -/

/-- C3 as stated fails: with the package counter at 1 and a generator that always
yields 0, after `simulate(f, 2, observer)` on the full-cycle factory the stock of
storehouse 1 does not hold 2 packages (it holds one). -/
theorem C3_stock_is_not_two :
    ¬ ((stock_of (simulate (factory_ops (fun _ => 0)) (full_cycle_start 1 0) 2
        no_observer).factory 1).map List.length = some 2) := by
  have h := full_cycle_two_turns (fun _ => 0) (fun _ => by norm_num) 1 0
  have hs : simulate (factory_ops (fun _ => 0)) (full_cycle_start 1 0) 2 no_observer =
      { factory := simulate_loop (factory_ops (fun _ => 0)) no_observer 2 1
          (full_cycle_start 1 0),
        outcome := Outcome.returned } := by
    simp [simulate, factory_ops, full_cycle_start, full_cycle_consistent]
  rw [hs]
  simp only [full_cycle_start]
  rw [h]
  simp [stock_of, Factory.find_storehouse_by_id, full_cycle, Storehouse.get_id]

/-- C3, amended: for the factory Ramp(1, interval 1) → Worker(1, duration 1, FIFO) →
Storehouse(1) with all buffers empty, whatever the package counter and the values in
[0, 1) the generator yields, `simulate(f, 2, observer)` returns normally and afterwards
the storehouse's stock holds exactly one package, the one the ramp delivered at
turn 1; the package delivered at turn 2 is in the worker's sending buffer. -/
theorem C3_full_cycle_stock (gen : Nat → ℚ) (hg : ∀ i, 0 ≤ gen i ∧ gen i < 1) (n k : Nat) :
    (simulate (factory_ops gen) (full_cycle_start n k) 2 no_observer).outcome =
      Outcome.returned ∧
    ramp_buffer_of (Process.do_deliveries (full_cycle_start n k) 1) 1 = some { id := n } ∧
    stock_of (simulate (factory_ops gen) (full_cycle_start n k) 2 no_observer).factory 1 =
      some [{ id := n }] ∧
    worker_buffer_of (simulate (factory_ops gen) (full_cycle_start n k) 2 no_observer).factory 1 =
      some { id := n + 1 } := by
  have h := full_cycle_two_turns gen (fun i => (hg i).2) n k
  have hs : simulate (factory_ops gen) (full_cycle_start n k) 2 no_observer =
      { factory := simulate_loop (factory_ops gen) no_observer 2 1 (full_cycle_start n k),
        outcome := Outcome.returned } := by
    simp [simulate, factory_ops, full_cycle_start, full_cycle_consistent]
  rw [hs]
  simp only [full_cycle_start] at h ⊢
  rw [h, full_cycle_deliver]
  simp [stock_of, ramp_buffer_of, worker_buffer_of, Factory.find_storehouse_by_id,
    Factory.find_ramp_by_id, Factory.find_worker_by_id, full_cycle, Storehouse.get_id,
    Ramp.get_id, Worker.get_id]

/-- C3, amended, with the package counter at 1 and a generator that always yields 0. -/
theorem C3_full_cycle_stock_witness :
    (∀ i : Nat, (0 : ℚ) ≤ (fun _ => (0 : ℚ)) i ∧ (fun _ => (0 : ℚ)) i < 1) ∧
    stock_of (simulate (factory_ops (fun _ => 0)) (full_cycle_start 1 0) 2
      no_observer).factory 1 = some [{ id := 1 }] :=
  ⟨fun _ => by norm_num,
    (C3_full_cycle_stock (fun _ => 0) (fun _ => by norm_num) 1 0).2.2.1⟩

/-! ### Exit codes: claim C10 -/

/-- C10: `main` returns 1 whenever `factory_structure.txt` cannot be opened, the loader
fails, the loaded factory is inconsistent, or the simulation fails, and 0 when none of
these happens; a loaded factory that is inconsistent gives exit code 1, after the
warning of the consistency check, through the exception of `simulate`. -/
theorem C10_exit_code {F : Type} (ops : FactoryOps F) (env : MainEnv F) :
    ((main ops env).exit_code = 1 ↔
      (env.input_file_is_open = false ∨
       (∃ what, env.load_factory_structure = Except.error what) ∨
       (∃ f, env.load_factory_structure = Except.ok f ∧
          (ops.is_consistent f = false ∨
           (simulate ops f 5 (fun f _ => f)).outcome ≠ Outcome.returned)))) ∧
    ((main ops env).exit_code = 0 ↔
      (env.input_file_is_open = true ∧
       ∃ f, env.load_factory_structure = Except.ok f ∧ ops.is_consistent f = true ∧
          (simulate ops f 5 (fun f _ => f)).outcome = Outcome.returned)) ∧
    (∀ f, env.input_file_is_open = true → env.load_factory_structure = Except.ok f →
      ops.is_consistent f = false →
      main ops env = { exit_code := 1, cerr := ["Warning: Network is inconsistent!",
        "Error: Factory is inconsistent"] }) := by
  cases ho : env.input_file_is_open with
  | false => simp [main, ho]
  | true =>
    cases hl : env.load_factory_structure with
    | error what => simp [main, ho, hl]
    | ok f =>
      cases hc : ops.is_consistent f with
      | false => simp [main, ho, hl, simulate, hc]
      | true => simp [main, ho, hl, simulate, hc]

end NetSim
